import Mathlib

/-!
Shallow embedding of the payroll computation core of `src/main.py`:
the rounding utility `to_decimal`, the progressive tax calculator
`income_tax_annually` over the fixed `TAX_SLABS` table, and the pure
arithmetic pipeline of `compute_pay`, together with its lookup/append
state contract against the employee store and the payslip store.

Monetary values are modelled as exact rationals (Python's `Decimal`
performs exact decimal arithmetic at the small precisions arising here:
all products and the divisions by 100 and 12 stay far below the
28-significant-digit context, and the `/12` quotient is only ever
quantized, whose outcome the 28-digit intermediate cannot change for
the 2-decimal operands of this program).
-/

namespace Payroll

/-- Round to the nearest integer, ties away from zero.  Embeds the
`ROUND_HALF_UP` mode of Python's `decimal` module. -/
def roundHalfUpZ (x : ℚ) : ℤ :=
  if 0 ≤ x then ⌊x + 1/2⌋ else -⌊1/2 - x⌋

/-- `to_decimal` of `src/main.py` line 25: quantize to 2 fractional
digits with `ROUND_HALF_UP`.  The `Decimal(str(x))` conversion is the
exact decimal value of the input, which the rational argument already
is. -/
def to_decimal (x : ℚ) : ℚ :=
  (roundHalfUpZ (x * 100) : ℚ) / 100

/-- Round to the nearest integer, ties to even.  Embeds the default
rounding mode (`ROUND_HALF_EVEN`) of Python's `decimal` context, used
by every bare `.quantize(Decimal(str 0.01))` call in `compute_pay`. -/
def roundHalfEvenZ (x : ℚ) : ℤ :=
  if x - ⌊x⌋ < 1/2 then ⌊x⌋
  else if 1/2 < x - ⌊x⌋ then ⌊x⌋ + 1
  else if ⌊x⌋ % 2 = 0 then ⌊x⌋ else ⌊x⌋ + 1

/-- A bare `.quantize(Decimal(str 0.01))` under the default context:
2 fractional digits, ties to even. -/
def quantHE (x : ℚ) : ℚ :=
  (roundHalfEvenZ (x * 100) : ℚ) / 100

/-- `PF_PERCENT` constant, line 115. -/
def PF_PERCENT : ℚ := 12

/-- `TAX_SLABS` constant, lines 116-121: (ceiling, marginal rate). -/
def TAX_SLABS : List (ℚ × ℚ) :=
  [(250000, 0), (500000, 1/20), (1000000, 1/5), (999999999, 3/10)]

/-- The loop of `income_tax_annually`, lines 125-135, with the local
`slab_amount = min(limit - prev_limit, taxable_income - prev_limit)`
inlined.  The `break` on `taxable_income <= limit` becomes returning
the accumulator without recursing. -/
def taxLoop : List (ℚ × ℚ) → ℚ → ℚ → ℚ → ℚ
  | [], _, _, tax => tax
  | (limit, rate) :: rest, taxable_income, prev_limit, tax =>
    if min (limit - prev_limit) (taxable_income - prev_limit) ≤ 0 then
      taxLoop rest taxable_income limit tax
    else if taxable_income ≤ limit then
      tax + min (limit - prev_limit) (taxable_income - prev_limit) * rate
    else
      taxLoop rest taxable_income limit
        (tax + min (limit - prev_limit) (taxable_income - prev_limit) * rate)

/-- `income_tax_annually`, lines 123-136: run the slab loop from
`prev_limit = 0`, `tax = 0`, and round the total once with
`to_decimal`. -/
def income_tax_annually (taxable_income : ℚ) : ℚ :=
  to_decimal (taxLoop TAX_SLABS taxable_income 0 0)

/-- Line 144: `hra = (basic * to_decimal(hra_pct) / 100).quantize(0.01)`
where `basic = to_decimal(basic)` (line 143). -/
def hra_of (basicIn hraPct : ℚ) : ℚ :=
  quantHE (to_decimal basicIn * to_decimal hraPct / 100)

/-- Line 145: `da = (basic * to_decimal(da_pct) / 100).quantize(0.01)`. -/
def da_of (basicIn daPct : ℚ) : ℚ :=
  quantHE (to_decimal basicIn * to_decimal daPct / 100)

/-- Line 147: `gross = (basic + hra + da + other_allow).quantize(0.01)`
with `other_allow = to_decimal(other_allow)` (line 146). -/
def gross_of (basicIn hraPct daPct otherIn : ℚ) : ℚ :=
  quantHE (to_decimal basicIn + hra_of basicIn hraPct + da_of basicIn daPct +
    to_decimal otherIn)

/-- Line 149: `pf = (basic * PF_PERCENT / 100).quantize(0.01)`. -/
def pf_of (basicIn : ℚ) : ℚ :=
  quantHE (to_decimal basicIn * PF_PERCENT / 100)

/-- Line 151: `annual_gross = gross * 12` (no rounding). -/
def annual_gross_of (basicIn hraPct daPct otherIn : ℚ) : ℚ :=
  gross_of basicIn hraPct daPct otherIn * 12

/-- Lines 153-154: `taxable_ann = max(0, annual_gross - 50000)`. -/
def taxable_of (basicIn hraPct daPct otherIn : ℚ) : ℚ :=
  max 0 (annual_gross_of basicIn hraPct daPct otherIn - 50000)

/-- Line 155: `annual_tax = income_tax_annually(taxable_ann)`. -/
def annual_tax_of (basicIn hraPct daPct otherIn : ℚ) : ℚ :=
  income_tax_annually (taxable_of basicIn hraPct daPct otherIn)

/-- Line 156: `monthly_tax = (annual_tax / 12).quantize(0.01)`. -/
def monthly_tax_of (basicIn hraPct daPct otherIn : ℚ) : ℚ :=
  quantHE (annual_tax_of basicIn hraPct daPct otherIn / 12)

/-- Line 158: `total_deductions = (pf + monthly_tax).quantize(0.01)`. -/
def total_deductions_of (basicIn hraPct daPct otherIn : ℚ) : ℚ :=
  quantHE (pf_of basicIn + monthly_tax_of basicIn hraPct daPct otherIn)

/-- Line 159: `net = (gross - total_deductions).quantize(0.01)`. -/
def net_of (basicIn hraPct daPct otherIn : ℚ) : ℚ :=
  quantHE (gross_of basicIn hraPct daPct otherIn -
    total_deductions_of basicIn hraPct daPct otherIn)

/-- The nine monetary fields of the `breakdown` dict, lines 161-171. -/
structure PayBreakdown where
  basic : ℚ
  hra : ℚ
  da : ℚ
  other_allowances : ℚ
  gross_salary : ℚ
  pf : ℚ
  tax : ℚ
  total_deductions : ℚ
  net_salary : ℚ

/-- The pure arithmetic pipeline of `compute_pay`, lines 143-171,
from the stored profile fields to the breakdown. -/
def compute_pay_core (basicIn hraPct daPct otherIn : ℚ) : PayBreakdown :=
  { basic := to_decimal basicIn
    hra := hra_of basicIn hraPct
    da := da_of basicIn daPct
    other_allowances := to_decimal otherIn
    gross_salary := gross_of basicIn hraPct daPct otherIn
    pf := pf_of basicIn
    tax := monthly_tax_of basicIn hraPct daPct otherIn
    total_deductions := total_deductions_of basicIn hraPct daPct otherIn
    net_salary := net_of basicIn hraPct daPct otherIn }

/-- Stored employee profile fields read by `compute_pay` (line 142). -/
structure Employee where
  name : String
  designation : String
  basic : ℚ
  hra_percent : ℚ
  da_percent : ℚ
  other_allowances : ℚ

/-- One row of the `payslips` table as inserted by lines 178-180. -/
structure PayslipRecord where
  emp_code : String
  month : String
  gross_salary : ℚ
  total_deductions : ℚ
  net_salary : ℚ
  breakdown : PayBreakdown

/-- The two stores: the `employees` table keyed by `emp_code` and the
append-only `payslips` table. -/
structure DB where
  employees : List (String × Employee)
  payslips : List PayslipRecord

/-- `get_employee_by_code`, lines 107-111: lookup by unique code. -/
def get_employee_by_code (db : DB) (emp_code : String) : Option Employee :=
  (db.employees.find? (fun p => p.1 == emp_code)).map Prod.snd

/-- `compute_pay`, lines 138-189: look up the profile (raising
`ValueError('Employee not found')` when absent, before any insert),
run the arithmetic pipeline, append the payslip row, and return the
breakdown.  The state is threaded explicitly; an error leaves it
untouched. -/
def compute_pay (db : DB) (emp_code : String) (month : String) :
    Except String PayBreakdown × DB :=
  match get_employee_by_code db emp_code with
  | none => (Except.error "Employee not found", db)
  | some e =>
    let p := compute_pay_core e.basic e.hra_percent e.da_percent e.other_allowances
    (Except.ok p,
      { db with payslips := db.payslips ++
          [{ emp_code := emp_code, month := month,
             gross_salary := p.gross_salary,
             total_deductions := p.total_deductions,
             net_salary := p.net_salary, breakdown := p }] })

/-- Modelled from the spec (§4.2 wording, for the C3 refinement): the
loop with `amount = min(ceiling, taxable_income) - prev_limit`. -/
def annual_tax_spec_loop : List (ℚ × ℚ) → ℚ → ℚ → ℚ → ℚ
  | [], _, _, total => total
  | (ceiling, rate) :: rest, taxable_income, prev_limit, total =>
    if min ceiling taxable_income - prev_limit ≤ 0 then
      annual_tax_spec_loop rest taxable_income ceiling total
    else if taxable_income ≤ ceiling then
      total + (min ceiling taxable_income - prev_limit) * rate
    else
      annual_tax_spec_loop rest taxable_income ceiling
        (total + (min ceiling taxable_income - prev_limit) * rate)

/-- Modelled from the spec (§4.2): reference annual tax, accumulated
total rounded exactly once at the end. -/
def annual_tax_spec (taxable_income : ℚ) : ℚ :=
  to_decimal (annual_tax_spec_loop TAX_SLABS taxable_income 0 0)

/-- A value representable with 2 fractional digits: an integer number
of cents. -/
def IsCent (x : ℚ) : Prop := ∃ n : ℤ, x = (n : ℚ) / 100

lemma roundHalfUpZ_intCast (n : ℤ) : roundHalfUpZ (n : ℚ) = n := by
  unfold roundHalfUpZ
  rcases le_or_lt 0 (n : ℚ) with h | h
  · rw [if_pos h, Int.floor_eq_iff]
    constructor <;> linarith
  · rw [if_neg (not_le.mpr h)]
    have : ⌊(1 : ℚ)/2 - (n : ℚ)⌋ = -n := by
      rw [Int.floor_eq_iff]
      constructor <;> push_cast <;> linarith
    rw [this, neg_neg]

lemma roundHalfEvenZ_intCast (n : ℤ) : roundHalfEvenZ (n : ℚ) = n := by
  unfold roundHalfEvenZ
  rw [Int.floor_intCast, sub_self, if_pos (by norm_num)]

lemma to_decimal_cent (n : ℤ) : to_decimal ((n : ℚ) / 100) = (n : ℚ) / 100 := by
  unfold to_decimal
  rw [div_mul_cancel₀ _ (by norm_num : (100 : ℚ) ≠ 0), roundHalfUpZ_intCast]

lemma quantHE_cent (n : ℤ) : quantHE ((n : ℚ) / 100) = (n : ℚ) / 100 := by
  unfold quantHE
  rw [div_mul_cancel₀ _ (by norm_num : (100 : ℚ) ≠ 0), roundHalfEvenZ_intCast]

lemma IsCent.add {x y : ℚ} (hx : IsCent x) (hy : IsCent y) : IsCent (x + y) := by
  obtain ⟨m, rfl⟩ := hx
  obtain ⟨n, rfl⟩ := hy
  exact ⟨m + n, by push_cast; ring⟩

lemma IsCent.sub {x y : ℚ} (hx : IsCent x) (hy : IsCent y) : IsCent (x - y) := by
  obtain ⟨m, rfl⟩ := hx
  obtain ⟨n, rfl⟩ := hy
  exact ⟨m - n, by push_cast; ring⟩

lemma IsCent.quantHE_eq {x : ℚ} (hx : IsCent x) : quantHE x = x := by
  obtain ⟨n, rfl⟩ := hx
  exact quantHE_cent n

lemma IsCent.to_decimal_eq {x : ℚ} (hx : IsCent x) : to_decimal x = x := by
  obtain ⟨n, rfl⟩ := hx
  exact to_decimal_cent n

/-- C7: `round_money` works on the exact decimal value of its input,
breaks the tie at 2.005 upward to 2.01 (not 2.00), and is idempotent
on every input. -/
theorem C7_round_money_half_up_idempotent :
    to_decimal (2005/1000 : ℚ) = 201/100 ∧
    ∀ x : ℚ, to_decimal (to_decimal x) = to_decimal x := by
  constructor
  · norm_num [to_decimal, roundHalfUpZ]
  · intro x
    exact IsCent.to_decimal_eq ⟨_, rfl⟩

/-- C4: every breakdown produced by `compute_pay` satisfies, exactly,
`gross_salary = basic + hra + da + other_allowances`,
`total_deductions = pf + tax` and
`net_salary = gross_salary - total_deductions`. -/
theorem C4_breakdown_invariants (b h d o : ℚ) :
    (compute_pay_core b h d o).gross_salary =
      (compute_pay_core b h d o).basic + (compute_pay_core b h d o).hra +
      (compute_pay_core b h d o).da + (compute_pay_core b h d o).other_allowances ∧
    (compute_pay_core b h d o).total_deductions =
      (compute_pay_core b h d o).pf + (compute_pay_core b h d o).tax ∧
    (compute_pay_core b h d o).net_salary =
      (compute_pay_core b h d o).gross_salary -
      (compute_pay_core b h d o).total_deductions := by
  refine ⟨?_, ?_, ?_⟩
  · exact IsCent.quantHE_eq (IsCent.add (IsCent.add (IsCent.add
      (⟨_, rfl⟩ : IsCent (to_decimal b)) ⟨_, rfl⟩) ⟨_, rfl⟩) ⟨_, rfl⟩)
  · exact IsCent.quantHE_eq (IsCent.add (⟨_, rfl⟩ : IsCent (pf_of b)) ⟨_, rfl⟩)
  · exact IsCent.quantHE_eq (IsCent.sub (⟨_, rfl⟩ : IsCent (gross_of b h d o)) ⟨_, rfl⟩)

/-- C1 counterexample: the claim says `hra` equals the half-up
rounding of `basic * hra_percent / 100`, but for basic = 100.25 and
hra_percent = 10 the code's bare quantize yields 10.02 (ties to even)
while the half-up rounding is 10.03. -/
theorem C1_counterexample :
    hra_of (401/4 : ℚ) 10 ≠
      to_decimal (to_decimal (401/4 : ℚ) * to_decimal 10 / 100) := by
  norm_num [hra_of, quantHE, roundHalfEvenZ, to_decimal, roundHalfUpZ]

/-- C1 (amended): every intermediate arithmetic result of
`compute_pay` (hra, da, gross, pf, monthly tax, total deductions,
net) is rounded to exactly 2 fractional digits before the next step,
but with the Decimal default round-half-to-even policy of a bare
`quantize`, not the half-up policy of `to_decimal`. -/
theorem C1_rounding_boundaries (b h d o : ℚ) :
    (compute_pay_core b h d o).hra =
      quantHE ((compute_pay_core b h d o).basic * to_decimal h / 100) ∧
    (compute_pay_core b h d o).da =
      quantHE ((compute_pay_core b h d o).basic * to_decimal d / 100) ∧
    (compute_pay_core b h d o).gross_salary =
      quantHE ((compute_pay_core b h d o).basic + (compute_pay_core b h d o).hra +
        (compute_pay_core b h d o).da + (compute_pay_core b h d o).other_allowances) ∧
    (compute_pay_core b h d o).pf =
      quantHE ((compute_pay_core b h d o).basic * PF_PERCENT / 100) ∧
    (compute_pay_core b h d o).tax =
      quantHE (income_tax_annually
        (max 0 ((compute_pay_core b h d o).gross_salary * 12 - 50000)) / 12) ∧
    (compute_pay_core b h d o).total_deductions =
      quantHE ((compute_pay_core b h d o).pf + (compute_pay_core b h d o).tax) ∧
    (compute_pay_core b h d o).net_salary =
      quantHE ((compute_pay_core b h d o).gross_salary -
        (compute_pay_core b h d o).total_deductions) :=
  ⟨rfl, rfl, rfl, rfl, rfl, rfl, rfl⟩

/-- C2: the spec's worked scenario basic = 30000, hra_percent = 20,
da_percent = 0, other = 0 produces exactly hra = 6000, gross = 36000,
pf = 3600, annual gross = 432000, taxable annual = 382000, annual
tax = 6600, monthly tax = 550, total deductions = 4150 and
net = 31850. -/
theorem C2_scenario_30000 :
    (compute_pay_core 30000 20 0 0).hra = 6000 ∧
    (compute_pay_core 30000 20 0 0).gross_salary = 36000 ∧
    (compute_pay_core 30000 20 0 0).pf = 3600 ∧
    annual_gross_of 30000 20 0 0 = 432000 ∧
    taxable_of 30000 20 0 0 = 382000 ∧
    annual_tax_of 30000 20 0 0 = 6600 ∧
    (compute_pay_core 30000 20 0 0).tax = 550 ∧
    (compute_pay_core 30000 20 0 0).total_deductions = 4150 ∧
    (compute_pay_core 30000 20 0 0).net_salary = 31850 := by
  norm_num [compute_pay_core, net_of, total_deductions_of, monthly_tax_of,
    annual_tax_of, taxable_of, annual_gross_of, gross_of, hra_of, da_of, pf_of,
    PF_PERCENT, income_tax_annually, TAX_SLABS, taxLoop, quantHE, roundHalfEvenZ,
    to_decimal, roundHalfUpZ]

lemma taxLoop_eq_spec_loop (slabs : List (ℚ × ℚ)) :
    ∀ taxable_income prev_limit tax : ℚ,
      taxLoop slabs taxable_income prev_limit tax =
        annual_tax_spec_loop slabs taxable_income prev_limit tax := by
  induction slabs with
  | nil => intro _ _ _; rfl
  | cons head rest ih =>
    intro taxable_income prev_limit tax
    obtain ⟨limit, rate⟩ := head
    simp only [taxLoop, annual_tax_spec_loop, min_sub_sub_right, ih]

/-- C3: the code's annual tax function coincides, for every
non-negative taxable income, with the spec's reference progressive
computation over the fixed slab table, rounded once at the end. -/
theorem C3_tax_refines_spec (taxable_income : ℚ) (_h : 0 ≤ taxable_income) :
    income_tax_annually taxable_income = annual_tax_spec taxable_income := by
  unfold income_tax_annually annual_tax_spec
  rw [taxLoop_eq_spec_loop]

/-- Witness for C3 at taxable income 382000. -/
theorem C3_tax_refines_spec_witness :
    income_tax_annually 382000 = annual_tax_spec 382000 :=
  C3_tax_refines_spec 382000 (by norm_num)

/-- C5: computing pay for a code absent from the employee store
raises the not-found error and leaves the payslip store's row count
unchanged. -/
theorem C5_not_found_no_append (db : DB) (emp_code month : String)
    (h : get_employee_by_code db emp_code = none) :
    (compute_pay db emp_code month).1 = Except.error "Employee not found" ∧
    (compute_pay db emp_code month).2.payslips.length = db.payslips.length := by
  simp [compute_pay, h]

/-- Witness for C5 on an empty database. -/
theorem C5_not_found_no_append_witness :
    (compute_pay ⟨[], []⟩ "E1" "2024-01").1 = Except.error "Employee not found" ∧
    (compute_pay ⟨[], []⟩ "E1" "2024-01").2.payslips.length =
      (⟨[], []⟩ : DB).payslips.length :=
  C5_not_found_no_append ⟨[], []⟩ "E1" "2024-01" rfl

/-- C6: at every non-final slab ceiling, one more unit of income adds
exactly the next slab's rate to the pre-rounding annual tax
(no retroactive re-taxing of lower portions). -/
theorem C6_marginal_rate_at_ceiling :
    ∀ q ∈ TAX_SLABS.zip TAX_SLABS.tail,
      taxLoop TAX_SLABS (q.1.1 + 1) 0 0 - taxLoop TAX_SLABS q.1.1 0 0 =
        q.2.2 * 1 := by
  intro q hq
  simp only [TAX_SLABS, List.tail_cons, List.zip_cons_cons, List.zip_nil_right,
    List.mem_cons, List.not_mem_nil, or_false] at hq
  rcases hq with rfl | rfl | rfl <;>
    norm_num [TAX_SLABS, taxLoop]

/-- Witness for C6 at the first ceiling 250000. -/
theorem C6_marginal_rate_at_ceiling_witness :
    taxLoop TAX_SLABS ((250000 : ℚ) + 1) 0 0 - taxLoop TAX_SLABS 250000 0 0 =
      (1/20 : ℚ) * 1 :=
  C6_marginal_rate_at_ceiling ((250000, 0), (500000, 1/20))
    (List.mem_cons_self _ _)

/-- C8: the taxable annual amount is the clamp
`max 0 (annual_gross - 50000)`, hence never negative, and the
all-zero profile yields taxable 0, tax 0 and net 0. -/
theorem C8_clamp_nonneg :
    (∀ b h d o : ℚ, 0 ≤ taxable_of b h d o) ∧
    taxable_of 0 0 0 0 = 0 ∧
    (compute_pay_core 0 0 0 0).tax = 0 ∧
    (compute_pay_core 0 0 0 0).net_salary = 0 := by
  refine ⟨fun b h d o => le_max_left 0 _, ?_, ?_, ?_⟩ <;>
    norm_num [compute_pay_core, net_of, total_deductions_of, monthly_tax_of,
      annual_tax_of, taxable_of, annual_gross_of, gross_of, hra_of, da_of, pf_of,
      PF_PERCENT, income_tax_annually, TAX_SLABS, taxLoop, quantHE, roundHalfEvenZ,
      to_decimal, roundHalfUpZ]

lemma taxLoop_nonpos (slabs : List (ℚ × ℚ)) (hpos : ∀ p ∈ slabs, 0 ≤ p.1) :
    ∀ taxable_income prev_limit tax : ℚ, taxable_income ≤ 0 → 0 ≤ prev_limit →
      taxLoop slabs taxable_income prev_limit tax = tax := by
  induction slabs with
  | nil => intro _ _ _ _ _; rfl
  | cons head rest ih =>
    intro taxable_income prev_limit tax hti hprev
    obtain ⟨limit, rate⟩ := head
    have hlim : (0 : ℚ) ≤ limit := hpos (limit, rate) (List.mem_cons_self _ _)
    have hcond : min (limit - prev_limit) (taxable_income - prev_limit) ≤ 0 :=
      le_trans (min_le_right _ _) (by linarith)
    simp only [taxLoop, if_pos hcond]
    exact ih (fun p hp => hpos p (List.mem_cons_of_mem _ hp))
      taxable_income limit tax hti hlim

/-- C9: for every taxable income at most 0 (negative included) the
annual tax function returns exactly 0. -/
theorem C9_nonpos_income_zero_tax (taxable_income : ℚ)
    (h : taxable_income ≤ 0) : income_tax_annually taxable_income = 0 := by
  have hs : ∀ p ∈ TAX_SLABS, (0 : ℚ) ≤ p.1 := by
    intro p hp
    simp only [TAX_SLABS, List.mem_cons, List.not_mem_nil, or_false] at hp
    rcases hp with rfl | rfl | rfl | rfl <;> norm_num
  unfold income_tax_annually
  rw [taxLoop_nonpos TAX_SLABS hs taxable_income 0 0 h le_rfl]
  norm_num [to_decimal, roundHalfUpZ]

/-- Witness for C9 at taxable income 0. -/
theorem C9_nonpos_income_zero_tax_witness : income_tax_annually 0 = 0 :=
  C9_nonpos_income_zero_tax 0 le_rfl

/-- C10: above the final ceiling 999999999 the annual tax is constant,
equal to its value at exactly 999999999. -/
theorem C10_tax_capped_above_final_ceiling (taxable_income : ℚ)
    (h : 999999999 < taxable_income) :
    income_tax_annually taxable_income = income_tax_annually 999999999 := by
  have m1 : min ((250000 : ℚ) - 0) (taxable_income - 0) = 250000 - 0 :=
    min_eq_left (by linarith)
  have m2 : min ((500000 : ℚ) - 250000) (taxable_income - 250000) =
      500000 - 250000 := min_eq_left (by linarith)
  have m3 : min ((1000000 : ℚ) - 500000) (taxable_income - 500000) =
      1000000 - 500000 := min_eq_left (by linarith)
  have m4 : min ((999999999 : ℚ) - 1000000) (taxable_income - 1000000) =
      999999999 - 1000000 := min_eq_left (by linarith)
  have h1 : ¬ taxable_income ≤ (250000 : ℚ) := by linarith
  have h2 : ¬ taxable_income ≤ (500000 : ℚ) := by linarith
  have h3 : ¬ taxable_income ≤ (1000000 : ℚ) := by linarith
  have h4 : ¬ taxable_income ≤ (999999999 : ℚ) := by linarith
  have hval : income_tax_annually 999999999 = 2998124997/10 := by
    norm_num [income_tax_annually, TAX_SLABS, taxLoop, to_decimal, roundHalfUpZ]
  rw [hval]
  unfold income_tax_annually
  simp only [TAX_SLABS, taxLoop, m1, m2, m3, m4, if_neg h1, if_neg h2, if_neg h3,
    if_neg h4]
  norm_num [to_decimal, roundHalfUpZ]

/-- Witness for C10 at taxable income 1000000000. -/
theorem C10_tax_capped_above_final_ceiling_witness :
    income_tax_annually 1000000000 = income_tax_annually 999999999 :=
  C10_tax_capped_above_final_ceiling 1000000000 (by norm_num)

end Payroll
